import Mathlib

/-!
# Shallow embedding of the pykis event subscription/dispatch core

This file embeds `src/pykis/event/handler.py`: the `KisEventHandler` registry,
the `KisLambdaEventCallback` filtered/one-shot wrapper, and the
`KisEventTicket` subscription handle, together with the Python object
semantics the source relies on (set membership by `__hash__`/`__eq__`,
the unhashability of `set` objects).

Modelling conventions:

* Underlying callback functions and filter predicates are named by `Nat`
  identifiers; their behaviour is supplied by environments (`ActionEnv`,
  `FilterEnv`).  A callback's side effect on the world is (a) the record
  of its invocation, kept in the `calls` log, and (b) an update of the
  handler's registered-callback set (so that callbacks that re-register
  or add other callbacks, as in the snapshot-isolation scenario, are
  expressible).
* Senders are `Option Int` (the scenarios use `None`) and event payloads
  are `Int` (the scenarios filter on `e < 0`).
* `KisLambdaEventCallback` defines `__hash__` (as `hash((callback, where))`)
  but does **not** define `__eq__`, so Python compares wrapper objects by
  the default object identity; plain functions likewise compare by object
  identity.  Set membership in CPython tests `hash` buckets and then `==`,
  hence membership outcomes are decided exactly by that equality relation.
  We give every wrapper object an `objId` and every function object a
  `funId`, and define the membership equality `pyEq` accordingly.
* `pykis.utils.reference.release_method` is not part of the reviewed
  sources.  Modelled from the spec: it only drops a retained reference to
  the target function to break reference cycles and has no observable
  effect on the handler's registered set.  Where the *possibility* of the
  release hook raising matters (`KisEventHandler.remove`), the hook's
  outcome is an explicit `Except` parameter.
-/

namespace PyKis

/-- `KisLambdaEventCallback` (handler.py lines 87-131): wraps an underlying
callback function (`callbackId`), an optional filter predicate (`whereId`,
`none` when `where is None`) and the one-shot flag `once`.  `objId` is the
Python object identity of the wrapper itself, relevant because the class
defines no `__eq__`. -/
structure LambdaCallback where
  callbackId : Nat
  whereId : Option Nat
  once : Bool
  objId : Nat
deriving DecidableEq, Repr

/-- `EventCallback` (handler.py line 134): a registered entry is either a
plain function (identified by its function-object id) or a
`KisLambdaEventCallback` wrapper. -/
inductive EventCallbackObj where
  | plain (funId : Nat)
  | wrapped (c : LambdaCallback)
deriving DecidableEq, Repr

/-- Python equality between registered entries, as used by the `set` of
handlers.  Plain function objects are equal iff they are the same object;
`KisLambdaEventCallback` defines `__hash__` (line 127) but not `__eq__`,
so wrappers fall back to `object.__eq__`, i.e. object identity. -/
def pyEq : EventCallbackObj → EventCallbackObj → Bool
  | .plain f, .plain g => f == g
  | .wrapped c, .wrapped d => c.objId == d.objId
  | _, _ => false

/-- Observable state of one `KisEventHandler` together with the world the
callbacks act on: `handlers` is the registered set (`self.handlers`, a
Python `set`, held as a `pyEq`-duplicate-free list); `calls` logs every
invocation of an underlying callback function as `(funId, sender, e)`;
`unsubCalls` logs invocations of ticket "unsubscribed" side-effect
callbacks by their ids. -/
structure HState where
  handlers : List EventCallbackObj
  calls : List (Nat × Option Int × Int)
  unsubCalls : List Nat
deriving DecidableEq, Repr

/-- Behaviour of the filter predicates: `fenv w s e` is the Boolean the
predicate with id `w` returns on `(s, e)` (the `self.where(sender, e)`
branch of `__filter__`, line 114). -/
abbrev FilterEnv := Nat → Option Int → Int → Bool

/-- Behaviour of the underlying callback functions on the handler's
registered set: `aenv f s e hs` is the registered set after the function
with id `f` ran on `(s, e)` while the set was `hs` (most callbacks leave
it unchanged; the snapshot scenario's callback adds a new entry). -/
abbrev ActionEnv := Nat → Option Int → Int → List EventCallbackObj → List EventCallbackObj

/-- `set.add` semantics: insert unless an equal (`pyEq`) element is
present. -/
def setAdd (hs : List EventCallbackObj) (x : EventCallbackObj) : List EventCallbackObj :=
  if hs.any (fun y => pyEq y x) then hs else hs ++ [x]

/-- `set.remove` semantics with the `KeyError` swallowed (handler.py lines
270-273): drop every element equal (`pyEq`) to `x`; removing an absent
element leaves the set unchanged. -/
def setRemove (hs : List EventCallbackObj) (x : EventCallbackObj) : List EventCallbackObj :=
  hs.filter (fun y => !(pyEq y x))

/-- `KisEventHandler.__contains__` (line 306): membership of `x` in the
registered set. -/
def containsCb (st : HState) (x : EventCallbackObj) : Bool :=
  st.handlers.any (fun y => pyEq x y)

/-- `KisEventHandler.add` (lines 215-218), state part: `self.handlers.add(handler)`. -/
def add (st : HState) (x : EventCallbackObj) : HState :=
  { st with handlers := setAdd st.handlers x }

/-- The state effect of `KisEventHandler.remove` (lines 260-273) once the
release hook has returned: `try: self.handlers.remove(handler) except
KeyError: pass`. -/
def removeCore (st : HState) (x : EventCallbackObj) : HState :=
  { st with handlers := setRemove st.handlers x }

/-- `KisEventHandler.remove` (lines 260-273) with the release hook's
outcome explicit.  The source first calls the wrapper's `__del__` (which
calls `release_method`) — or `release_method` directly for a plain
function — with no `try` around it, and only then attempts the set
removal.  `hook` is the hook call's outcome: a raised exception
propagates out of `remove` before the set removal is reached. -/
def remove (hook : Except String Unit) (st : HState) (x : EventCallbackObj) :
    Except String HState := do
  let () ← hook
  pure (removeCore st x)

/-- Running an underlying callback function: the invocation is recorded in
the `calls` log and the function's effect on the registered set (from
`ActionEnv`) is applied. -/
def callFun (aenv : ActionEnv) (f : Nat) (s : Option Int) (e : Int) (st : HState) : HState :=
  { st with
    calls := st.calls ++ [(f, s, e)]
    handlers := aenv f s e st.handlers }

/-- `KisLambdaEventCallback.__filter__` (lines 107-115): returns `True`
when `self.where is None`, otherwise the value of the filter predicate on
`(sender, e)`. -/
def lambdaFilterFn (fenv : FilterEnv) (c : LambdaCallback) (s : Option Int) (e : Int) : Bool :=
  match c.whereId with
  | none => true
  | some w => fenv w s e

/-- `KisLambdaEventCallback.__callback__` (lines 117-121): when the
one-shot flag is set, first `handler.remove(self)` (whose state effect is
`removeCore`; the `release_method` hook is modelled from the spec as
non-raising and without observable effect), then call the underlying
function. -/
def lambdaCallbackRun (aenv : ActionEnv) (c : LambdaCallback) (s : Option Int) (e : Int)
    (st : HState) : HState :=
  let st1 := if c.once then removeCore st (.wrapped c) else st
  callFun aenv c.callbackId s e st1

/-- The body of `KisEventHandler.invoke`'s loop (lines 281-286) for one
entry of the snapshot: a `KisEventCallback` wrapper is delivered iff its
`__filter__` returned `False`; a plain function is called
unconditionally. -/
def invokeStep (fenv : FilterEnv) (aenv : ActionEnv) (s : Option Int) (e : Int)
    (st : HState) (h : EventCallbackObj) : HState :=
  match h with
  | .wrapped c => if lambdaFilterFn fenv c s e then st else lambdaCallbackRun aenv c s e st
  | .plain f => callFun aenv f s e st

/-- `KisEventHandler.invoke` (lines 279-286): iterate over
`self.handlers.copy()` — a snapshot of the registered set taken before
dispatch begins — threading the mutable state through each step. -/
def invoke (fenv : FilterEnv) (aenv : ActionEnv) (st : HState) (s : Option Int) (e : Int) :
    HState :=
  st.handlers.foldl (invokeStep fenv aenv s e) st

/-- `KisEventTicket` (lines 137-203): the subscribed callback object plus
the ids of the "unsubscribed" side-effect callbacks registered on the
ticket, in registration order. -/
structure Ticket where
  callback : EventCallbackObj
  unsubscribedCallbacks : List Nat
deriving DecidableEq, Repr

/-- `KisEventTicket.registered` (lines 165-168): `self.callback in self.handler`. -/
def registered (st : HState) (t : Ticket) : Bool :=
  containsCb st t.callback

/-- `KisEventTicket.unsubscribe` (lines 170-176): remove the callback from
the owning handler (the `release_method` hook is modelled from the spec
as non-raising), then — `if self.registered:` evaluated on the state
*after* the removal — run the ticket's unsubscribed side-effect
callbacks in registration order. -/
def unsubscribe (st : HState) (t : Ticket) : HState :=
  let st1 := removeCore st t.callback
  if registered st1 t then
    { st1 with unsubCalls := st1.unsubCalls ++ t.unsubscribedCallbacks }
  else st1

/-- `KisEventHandler.on` (lines 220-240): wrap the function in a
`KisLambdaEventCallback` with the given filter and once-flag (the fresh
wrapper object's identity is `objId`), `add` it, and return the fresh
ticket (whose `unsubscribed_callbacks` list starts empty). -/
def onSub (st : HState) (callbackId : Nat) (whereId : Option Nat) (onceFlag : Bool) (objId : Nat) :
    HState × Ticket :=
  let c : EventCallbackObj := .wrapped ⟨callbackId, whereId, onceFlag, objId⟩
  (add st c, ⟨c, []⟩)

/-- `KisEventHandler.once` (lines 242-258): `onSub` with the once-flag set
(`on` is a reserved token in Lean, hence the `Sub` suffix). -/
def onceSub (st : HState) (callbackId : Nat) (whereId : Option Nat) (objId : Nat) :
    HState × Ticket :=
  onSub st callbackId whereId true objId

/-- Outcome of Python's built-in `hash()` on an object: either an integer
or a raised `TypeError` for unhashable objects. -/
inductive PyHashResult where
  | ok (h : Int)
  | typeError
deriving DecidableEq, Repr

/-- Python semantics: instances of `set` are mutable and unhashable, so
`hash(s)` raises `TypeError` for every set `s`, regardless of its
elements. -/
def pyHashOfSet (_elems : List EventCallbackObj) : PyHashResult :=
  .typeError

/-- Python semantics of `hash((a, b))`: a tuple hashes its elements, so a
`TypeError` from an element propagates. -/
def pyHashTuple2 : PyHashResult → PyHashResult → PyHashResult
  | .ok a, .ok b => .ok (a + b)
  | _, _ => .typeError

/-- `KisEventHandler.__hash__` (lines 327-328): `return hash(self.handlers)`,
where `self.handlers` is a `set`. -/
def kisEventHandlerHash (st : HState) : PyHashResult :=
  pyHashOfSet st.handlers

/-- `KisEventTicket.__hash__` (lines 202-203):
`return hash((self.handler, self.callback))`; hashing the handler element
delegates to `KisEventHandler.__hash__`. -/
def kisEventTicketHash (st : HState) (cbHash : PyHashResult) : PyHashResult :=
  pyHashTuple2 (kisEventHandlerHash st) cbHash

/-- Action environment in which no callback touches the registered set
(e.g. a callback that only appends the payload to an external results
list; that observation is the `calls` log). -/
def idAEnv : ActionEnv := fun _ _ _ hs => hs

/-- Filter environment in which every predicate returns `False`
("deliver" under the source's documented polarity). -/
def falseFEnv : FilterEnv := fun _ _ _ => false

/-- Filter environment for the spec's end-to-end scenario: every
predicate is `lambda s, e: e < 0`. -/
def negFEnv : FilterEnv := fun _ _ e => decide (e < 0)

/-! ## Helper lemmas -/

theorem natBeq_comm (a b : Nat) : (a == b) = (b == a) := by
  by_cases h : a = b
  · subst h; rfl
  · rw [beq_eq_false_iff_ne.mpr h, beq_eq_false_iff_ne.mpr (Ne.symm h)]

theorem pyEq_symm (x y : EventCallbackObj) : pyEq x y = pyEq y x := by
  cases x <;> cases y <;> simp [pyEq, natBeq_comm]

theorem containsCb_removeCore (st : HState) (x : EventCallbackObj) :
    containsCb (removeCore st x) x = false := by
  simp only [containsCb, removeCore, setRemove]
  rw [List.any_eq_false]
  intro y hy
  rcases List.mem_filter.mp hy with ⟨-, hf⟩
  rw [pyEq_symm]
  simpa using hf

theorem setRemove_idem (hs : List EventCallbackObj) (x : EventCallbackObj) :
    setRemove (setRemove hs x) x = setRemove hs x := by
  simp [setRemove, List.filter_filter]

/-! ## Claim theorems -/

/-- Claim C1.  The claim says a subscription made with `H.on(fn)` and no
filter is always delivered.  The code does the opposite:
`KisLambdaEventCallback.__filter__` returns `True` when `self.where is
None` (line 109), and `invoke` delivers only when `__filter__` returns
`False` (line 283), so an unfiltered `on` subscription is never
delivered.  This theorem evaluates the code at the failing inputs: for
every filter/action environment, state logs, sender and payload, an
`invoke` on a handler holding one no-filter wrapper leaves the state —
in particular the `calls` log — completely unchanged. -/
theorem invoke_noFilter_wrapper_inert (fenv : FilterEnv) (aenv : ActionEnv)
    (f oid : Nat) (o : Bool) (cs : List (Nat × Option Int × Int)) (us : List Nat)
    (s : Option Int) (e : Int) :
    invoke fenv aenv ⟨[.wrapped ⟨f, none, o, oid⟩], cs, us⟩ s e =
      ⟨[.wrapped ⟨f, none, o, oid⟩], cs, us⟩ := by
  rfl

/-- Claim C2.  The claim's concrete scenario `t = H.once(cb)` with no
filter expects one `invoke` to leave `t.registered == False` and the
call count at 1.  The code evaluated at that input (callback id 0, no
filter): after one `invoke` the ticket is still registered and `cb` was
never called, and a second `invoke` changes nothing — the same
`where is None` defect as C1.  The second conjunct shows the one-shot
protocol itself is sound when a satisfied filter is present (callback
id 1, filter id 2 returning `False` = deliver): one `invoke` leaves the
ticket unregistered with exactly one call, and a second `invoke` adds
none. -/
theorem once_scenario_code_behaviour :
    (registered (invoke falseFEnv idAEnv (onceSub ⟨[], [], []⟩ 0 none 0).1 none 0)
        (onceSub ⟨[], [], []⟩ 0 none 0).2 = true ∧
      (invoke falseFEnv idAEnv (onceSub ⟨[], [], []⟩ 0 none 0).1 none 0).calls = [] ∧
      (invoke falseFEnv idAEnv
        (invoke falseFEnv idAEnv (onceSub ⟨[], [], []⟩ 0 none 0).1 none 0) none 0).calls = []) ∧
    (registered (invoke falseFEnv idAEnv (onceSub ⟨[], [], []⟩ 1 (some 2) 5).1 none 0)
        (onceSub ⟨[], [], []⟩ 1 (some 2) 5).2 = false ∧
      (invoke falseFEnv idAEnv (onceSub ⟨[], [], []⟩ 1 (some 2) 5).1 none 0).calls =
        [(1, none, 0)] ∧
      (invoke falseFEnv idAEnv
        (invoke falseFEnv idAEnv (onceSub ⟨[], [], []⟩ 1 (some 2) 5).1 none 0) none 0).calls =
        [(1, none, 0)]) := by
  decide

/-- The handler state of the spec's end-to-end scenario (claim C3):
`H = EventHandler(); t = H.on(cb, where=lambda s, e: e < 0)`, with the
appending callback as function id 0 and the filter as predicate id 0 of
`negFEnv`. -/
def c3State : HState := (onSub ⟨[], [], []⟩ 0 (some 0) false 0).1

/-- Claim C3, counterexample.  The claim expects `results == []` (no
delivery) after `H.invoke(None, 5)`; in the code the filter returns
`False` for 5 and `False` means deliver, so the callback *is* called and
the `calls` log is not empty. -/
theorem where_scenario_counterexample :
    ¬ (invoke negFEnv idAEnv c3State none 5).calls = [] := by
  decide

/-- Claim C3 as amended.  With the source's inverted filter polarity
(`True` suppresses, `False` delivers), `H.invoke(None, 5)` delivers the
event — `results == [5]` — and the further `H.invoke(None, -1)` is
suppressed by the filter (`-1 < 0` is `True`), leaving `results == [5]`
unchanged. -/
theorem where_scenario_actual :
    (invoke negFEnv idAEnv c3State none 5).calls = [(0, none, 5)] ∧
    (invoke negFEnv idAEnv (invoke negFEnv idAEnv c3State none 5) none (-1)).calls =
      [(0, none, 5)] := by
  decide

/-- Claim C4.  For a subscription carrying a filter predicate (`whereId =
some w`), one `invoke` pass delivers to the subscription's action iff
the predicate returns `false` on `(sender, e)`: when the filter returns
`true` the `calls` log is unchanged (delivery suppressed), and when it
returns `false` exactly one invocation of the underlying function is
appended (delivery allowed), for every one-shot flag, filter/action
environment and prior logs. -/
theorem filter_polarity (fenv : FilterEnv) (aenv : ActionEnv) (f w oid : Nat) (o : Bool)
    (cs : List (Nat × Option Int × Int)) (us : List Nat) (s : Option Int) (e : Int) :
    (invoke fenv aenv ⟨[.wrapped ⟨f, some w, o, oid⟩], cs, us⟩ s e).calls =
      (if fenv w s e then cs else cs ++ [(f, s, e)]) := by
  cases hfw : fenv w s e <;> cases o <;>
    simp [invoke, invokeStep, lambdaFilterFn, lambdaCallbackRun, callFun, removeCore, hfw]

/-- Handler state for the C5 scenario: the plain callback with function
id 3 is registered. -/
def c5State : HState := ⟨[.plain 3], [], []⟩

/-- Ticket for the C5 scenario: it holds the registered callback and one
"unsubscribed" side-effect callback, id 7. -/
def c5Ticket : Ticket := ⟨.plain 3, [7]⟩

/-- Claim C5.  The claim says the ticket's "unsubscribed" side-effect
callbacks run iff the callback was present at the moment of the
`unsubscribe()` call (iff the call had an effect).  The code tests
`self.registered` *after* `self.handler.remove(...)` (lines 172-174), so
after an effective removal `registered` is already `False` and the hooks
never run.  Evaluated at the failing input: the callback is present
before the call (so the call has an effect and the claim demands hook 7
to run), yet the `unsubCalls` log stays empty, and the callback is
indeed removed. -/
theorem unsubscribed_hooks_not_invoked :
    registered c5State c5Ticket = true ∧
    (unsubscribe c5State c5Ticket).unsubCalls = [] ∧
    registered (unsubscribe c5State c5Ticket) c5Ticket = false := by
  decide

/-- First wrapper of the C6 scenario: function id 0, filter id 1, object
identity 10. -/
def c6w1 : EventCallbackObj := .wrapped ⟨0, some 1, false, 10⟩

/-- Second wrapper of the C6 scenario: built from the same function id 0
and the same filter id 1, but a distinct object (identity 11). -/
def c6w2 : EventCallbackObj := .wrapped ⟨0, some 1, false, 11⟩

/-- Claim C6.  The claim says two wrappers built from the same function
and the same filter share one membership identity, so the second `add`
leaves the set at size 1 and `remove` with an equal-valued wrapper
removes the registered one.  `KisLambdaEventCallback` defines `__hash__`
as `hash((self.callback, self.where))` (line 128) but never defines
`__eq__`, so Python's set compares wrappers by object identity:
evaluated at the failing input, adding the second equal-valued wrapper
yields size 2, and removing via an equal-valued distinct wrapper leaves
the registered one in place. -/
theorem value_equal_wrappers_distinct :
    (add (add ⟨[], [], []⟩ c6w1) c6w2).handlers.length = 2 ∧
    (removeCore (add ⟨[], [], []⟩ c6w1) c6w2).handlers = [c6w1] := by
  decide

/-- Action environment of the snapshot scenario: the plain callback `a`,
when invoked, adds the plain callback `b` to the same handler; every
other callback leaves the set unchanged. -/
def aenvAdds (a b : Nat) : ActionEnv :=
  fun f _ _ hs => if f == a then setAdd hs (.plain b) else hs

/-- Claim C7.  Snapshot isolation: for a handler registered with callback
A (plain function `a`) whose action adds callback B (plain function `b`,
distinct from `a`) to the same handler, a single `invoke` delivers only
to A — the `calls` log gains exactly the one entry for `a` and none for
`b` — while B is a member of the handler afterward.  `invoke` iterates
`self.handlers.copy()`, a snapshot taken before dispatch begins. -/
theorem snapshot_isolation (a b : Nat) (hab : a ≠ b) (fenv : FilterEnv)
    (cs : List (Nat × Option Int × Int)) (us : List Nat) (s : Option Int) (e : Int) :
    (invoke fenv (aenvAdds a b) ⟨[.plain a], cs, us⟩ s e).calls = cs ++ [(a, s, e)] ∧
    containsCb (invoke fenv (aenvAdds a b) ⟨[.plain a], cs, us⟩ s e) (.plain b) = true := by
  simp [invoke, invokeStep, callFun, aenvAdds, setAdd, containsCb, pyEq, hab]

/-- Witness for `snapshot_isolation` at `a = 0`, `b = 1`, empty logs,
sender `none`, payload `0`. -/
theorem snapshot_isolation_witness :
    (invoke falseFEnv (aenvAdds 0 1) ⟨[.plain 0], [], []⟩ none 0).calls = [] ++ [(0, none, 0)] ∧
    containsCb (invoke falseFEnv (aenvAdds 0 1) ⟨[.plain 0], [], []⟩ none 0) (.plain 1) = true :=
  snapshot_isolation 0 1 (by decide) falseFEnv [] [] none 0

/-- Claim C8, counterexample.  The claim says the set removal is still
attempted even when the release hook raises.  In the source there is no
`try` around the hook call (lines 262-268); only the subsequent
`self.handlers.remove` is guarded (lines 270-273).  So when the hook
raises, `remove` propagates the exception and never reaches the set
removal: at a concrete state holding the callback, `remove` with a
raising hook returns the propagated error — not a state with the
callback removed. -/
theorem remove_raising_hook_counterexample :
    remove (.error "hook raised") ⟨[.plain 0], [], []⟩ (.plain 0) = .error "hook raised" := by
  rfl

/-- Claim C8 as amended.  `remove` runs the release hook first and
attempts the set removal only when the hook did not raise: with a
returning hook the callback's equality class is deleted from the set (so
it is no longer a member), and with a raising hook the exception
propagates and the set removal is skipped. -/
theorem remove_hook_ordering (m : String) (st : HState) (x : EventCallbackObj) :
    remove (.ok ()) st x = .ok (removeCore st x) ∧
    containsCb (removeCore st x) x = false ∧
    remove (.error m) st x = .error m :=
  ⟨rfl, containsCb_removeCore st x, rfl⟩

/-- Claim C9.  Removing the same callback twice is idempotent: after one
(hook-returning) `remove`, the second `remove` succeeds without error
and returns the handler state unchanged; and, in general, `remove` of a
callback that is not a member leaves the set exactly as it was (the
`KeyError` is swallowed, lines 270-273). -/
theorem remove_idempotent (st : HState) (x : EventCallbackObj) :
    remove (.ok ()) (removeCore st x) x = .ok (removeCore st x) ∧
    (containsCb st x = false → removeCore st x = st) := by
  constructor
  · show Except.ok (removeCore (removeCore st x) x) = Except.ok (removeCore st x)
    simp [removeCore, setRemove_idem]
  · intro hc
    cases st with
    | mk hs cs us =>
      simp only [removeCore, setRemove, HState.mk.injEq, and_true, true_and]
      apply List.filter_eq_self.mpr
      intro y hy
      have hxy : pyEq x y = false := by
        have := List.any_eq_false.mp (by simpa [containsCb] using hc) y hy
        simpa using this
      simp [pyEq_symm y x, hxy]

/-- Witness for `remove_idempotent`: the double-removal part at a state
holding the callback, and the absent-callback no-op part discharged at a
state not containing it. -/
theorem remove_idempotent_witness :
    remove (.ok ()) (removeCore ⟨[.plain 4], [], []⟩ (.plain 4)) (.plain 4) =
      .ok (removeCore ⟨[.plain 4], [], []⟩ (.plain 4)) ∧
    removeCore ⟨[.plain 5], [], []⟩ (.plain 4) = ⟨[.plain 5], [], []⟩ :=
  ⟨(remove_idempotent ⟨[.plain 4], [], []⟩ (.plain 4)).1,
   (remove_idempotent ⟨[.plain 5], [], []⟩ (.plain 4)).2 (by decide)⟩

/-- Claim C10.  `KisEventHandler.__hash__` returns `hash(self.handlers)`
where `self.handlers` is a mutable `set`, which is unhashable in Python,
so hashing any handler raises `TypeError`; `KisEventTicket.__hash__`
hashes the tuple `(self.handler, self.callback)`, whose handler element
raises, so hashing any ticket raises too — whatever the callback
element's own hash outcome is. -/
theorem handler_ticket_hash_typeError (st : HState) (cbHash : PyHashResult) :
    kisEventHandlerHash st = .typeError ∧ kisEventTicketHash st cbHash = .typeError := by
  refine ⟨rfl, ?_⟩
  cases cbHash <;> rfl

end PyKis
